import Mathlib

/-!
Shallow embedding of `congress/dse2/dse_node.py` (the DSE node layer):
Python dicts are modelled as insertion-ordered association lists, Python
sets as duplicate-free lists (add appends, discard erases the element),
and raised exceptions as explicit `Except`/`Option Exc` results.  Each
definition mirrors the body of the corresponding Python function.
-/

/-- Exceptions that the embedded code can raise.  `dataServiceError` is
`congress.exception.DataServiceError`, `attributeError` and `typeError` are
the Python builtins, and the datasource errors are the domain errors from
`congress.exception`. -/
inductive Exc where
  | dataServiceError
  | attributeError
  | typeError
  | datasourceNameInUse
  | datasourceCreationError
  | otherError
deriving DecidableEq, Repr

/-- Python dict lookup `d.get(k)` / `d[k]`: value of the first entry with the
given key. -/
def dget {α : Type} : List (String × α) → String → Option α
  | [], _ => none
  | (k1, v1) :: rest, k => if k1 = k then some v1 else dget rest k

/-- Python dict assignment `d[k] = v`: replaces the value of an existing key
in place, otherwise appends the new entry (insertion order). -/
def dset {α : Type} : List (String × α) → String → α → List (String × α)
  | [], k, v => [(k, v)]
  | (k1, v1) :: rest, k, v =>
      if k1 = k then (k, v) :: rest else (k1, v1) :: dset rest k v

/-- Python `del d[k]`: removes the entry with the given key. -/
def ddel {α : Type} : List (String × α) → String → List (String × α)
  | [], _ => []
  | (k1, v1) :: rest, k => if k1 = k then rest else (k1, v1) :: ddel rest k

/-- Python `s.add(x)` on a set modelled as a duplicate-free list. -/
def setAdd (s : List String) (x : String) : List String :=
  if s.contains x then s else s ++ [x]

/-- Python `s.discard(x)` on a set modelled as a duplicate-free list. -/
def setDiscard (s : List String) (x : String) : List String :=
  s.erase x

/-- The node's subscription table
`{publisher_id -> {table_name -> set_of_subscriber_ids}}`. -/
abbrev Subs := List (String × List (String × List String))

/-- `DseNode.subscribe_table` (the subscription-table mutation; the follow-up
snapshot RPC to the publisher does not touch the table and is omitted):

    if publisher not in self.subscriptions:
        self.subscriptions[publisher] = {}
    if table not in self.subscriptions[publisher]:
        self.subscriptions[publisher][table] = set()
    self.subscriptions[publisher][table].add(subscriber)
-/
def subscribe_table (subs : Subs) (subscriber publisher table : String) : Subs :=
  let subs1 := if (dget subs publisher).isSome then subs else dset subs publisher []
  let inner := (dget subs1 publisher).getD []
  let inner1 := if (dget inner table).isSome then inner else dset inner table []
  let tset := (dget inner1 table).getD []
  dset subs1 publisher (dset inner1 table (setAdd tset subscriber))

/-- `DseNode.unsubscribe_table`.  Returns the new table together with the
Python return value: `some false` models `return False`, `none` models the
implicit `return None` at the end of the function body. -/
def unsubscribe_table (subs : Subs) (subscriber publisher table : String) :
    Subs × Option Bool :=
  match dget subs publisher with
  | none => (subs, some false)
  | some inner =>
    match dget inner table with
    | none => (subs, some false)
    | some tset =>
      let tset1 := setDiscard tset subscriber
      let inner1 := if tset1.length = 0 then ddel inner table else dset inner table tset1
      let subs1 := if inner1.length = 0 then ddel subs publisher else dset subs publisher inner1
      (subs1, none)

/-- Python truthiness of a `False`/`None` result. -/
def pyTruthy : Option Bool → Bool
  | some b => b
  | none => false

/-- `DseNode.table_subscribers`:
`self.subscriptions.get(publisher, {}).get(table, [])`. -/
def table_subscribers (subs : Subs) (publisher table : String) : List String :=
  (dget ((dget subs publisher).getD []) table).getD []

/-- The §3 pruning invariant on the subscription table: no publisher key maps
to an empty table mapping and no table key maps to an empty subscriber set. -/
def subs_wf (subs : Subs) : Bool :=
  subs.all fun pe => !pe.2.isEmpty && pe.2.all fun te => !te.2.isEmpty

/-- One subscription-table operation. -/
inductive SubsOp where
  | sub (subscriber publisher table : String)
  | unsub (subscriber publisher table : String)
deriving DecidableEq, Repr

/-- Apply one operation to the subscription table (the return value of
`unsubscribe_table` is dropped). -/
def applySubsOp (subs : Subs) : SubsOp → Subs
  | .sub a p t => subscribe_table subs a p t
  | .unsub a p t => (unsubscribe_table subs a p t).1

/-- Apply a sequence of subscription-table operations. -/
def applySubsOps (subs : Subs) (ops : List SubsOp) : Subs :=
  ops.foldl applySubsOp subs

/-- A hosted `DataService` as seen by the node: its `service_id`, the
`ds_id` attribute (absent on non-datasource services, hence `Option`), and
the `type` attribute read by `getattr(s, 'type', '')`. -/
structure DataService where
  service_id : String
  ds_id : Option String
  type : String
deriving DecidableEq, Repr

/-- The selector of `DseNode.service_object` / `unregister_service`:
exactly one of `service_id` and `uuid_` is supplied. -/
inductive Selector where
  | byId (service_id : String)
  | byUuid (uuid : String)
deriving DecidableEq, Repr

/-- `DseNode.service_object`: linear scan of `self._services`, first match,
`None` on miss.  The `byUuid` branch compares `getattr(s, 'ds_id', None)`
with the supplied uuid string. -/
def service_object (svcs : List DataService) : Selector → Option DataService
  | .byId sid => svcs.find? fun s => s.service_id == sid
  | .byUuid u => svcs.find? fun s => s.ds_id == some u

/-- `DseNode.register_service`: raises `DataServiceError` if a service with
the same `service_id` is already hosted, otherwise appends the service to
`self._services` (starting its RPC server is an external effect). -/
def register_service (svcs : List DataService) (s : DataService) :
    Except Exc (List DataService) :=
  if (service_object svcs (.byId s.service_id)).isSome then .error .dataServiceError
  else .ok (svcs ++ [s])

/-- `DseNode.unregister_service`: looks the service up by the supplied
selector; if found it is removed from `self._services` (then stopped and
waited on).  The trailing `LOG.debug(..., service.service_id, ...)` sits
outside the `if service is not None` block, so on a miss it evaluates
`service.service_id` on `None` and raises `AttributeError`; the host list
is unchanged in that case. -/
def unregister_service (svcs : List DataService) (sel : Selector) :
    List DataService × Option Exc :=
  match service_object svcs sel with
  | some service => (svcs.erase service, none)
  | none => (svcs, some .attributeError)

/-- One registry operation: a `register_service` or `unregister_service`
call. -/
inductive RegOp where
  | reg (s : DataService)
  | unreg (sel : Selector)
deriving DecidableEq, Repr

/-- Apply one registry operation to the host list.  A raised exception
(`DataServiceError` on duplicate registration, `AttributeError` on a missed
unregister) leaves the list exactly as the code left it. -/
def applyRegOp (svcs : List DataService) : RegOp → List DataService
  | .reg s =>
    match register_service svcs s with
    | .ok svcs1 => svcs1
    | .error _ => svcs
  | .unreg sel => (unregister_service svcs sel).1

/-- Apply a sequence of registry operations. -/
def applyRegOps (svcs : List DataService) (ops : List RegOp) : List DataService :=
  ops.foldl applyRegOp svcs

/-- `DseNode.get_services`: all local services, hiding ids that start with
an underscore unless `hidden` is requested. -/
def get_services (svcs : List DataService) (hidden : Bool) : List DataService :=
  if hidden then svcs
  else svcs.filter fun s => s.service_id.take 1 != "_"

/-- `DseNode.get_global_service_names`: local service ids unioned with the
service ids advertised by peers (the peer-presence collaborator is
abstracted as the list of peer service ids). -/
def get_global_service_names (svcs : List DataService) (peers : List String)
    (hidden : Bool) : List String :=
  (get_services svcs hidden).map (fun s => s.service_id) ++ peers

/-- `DseNode.is_valid_service`:
`service_id in self.get_global_service_names(hidden=True)`. -/
def is_valid_service (svcs : List DataService) (peers : List String)
    (service_id : String) : Bool :=
  (get_global_service_names svcs peers true).contains service_id

/-- Outcome of one transport-level RPC call (`client.call`): a result, a
`MessagingTimeout`, a `MessageDeliveryFailure`, or a `RemoteError`
re-raised from the remote side. -/
inductive RpcOutcome (α : Type) where
  | ok (value : α)
  | timeout
  | deliveryFailure
  | remoteError
deriving DecidableEq, Repr

/-- Errors surfaced by `invoke_service_rpc` to its caller: `notFound` is
`congress.exception.NotFound` carrying the service id; the other three are
the raw transport/remote exceptions, surfaced only if uncaught. -/
inductive RpcError where
  | notFound (service_id : String)
  | messagingTimeout
  | messageDeliveryFailure
  | remoteError
deriving DecidableEq, Repr

/-- `DseNode.invoke_service_rpc`.  The transport is abstracted by the
outcomes of the two possible `client.call` invocations: `ping` is the
short-timeout liveness probe issued only when the service id is not in the
global service names, `call` is the real invocation.  The code catches
`MessagingTimeout` and `MessageDeliveryFailure` around each and raises
`NotFound(service_id)` instead; `RemoteError` is not caught. -/
def invoke_service_rpc {α : Type} (svcs : List DataService) (peers : List String)
    (service_id : String) (ping : RpcOutcome Unit) (call : RpcOutcome α) :
    Except RpcError α :=
  let runCall : Except RpcError α :=
    match call with
    | .ok v => .ok v
    | .timeout => .error (.notFound service_id)
    | .deliveryFailure => .error (.notFound service_id)
    | .remoteError => .error .remoteError
  if is_valid_service svcs peers service_id then runCall
  else
    match ping with
    | .ok _ => runCall
    | .timeout => .error (.notFound service_id)
    | .deliveryFailure => .error (.notFound service_id)
    | .remoteError => .error .remoteError

/-- One delivery performed by the publication dispatcher: the call
`service.receive_data_sequenced(publisher, table, data, seqnum,
is_snapshot)` made for one local subscriber (the payload is kept opaque as
a string). -/
structure Delivery where
  subscriber : String
  publisher : String
  table : String
  data : String
  is_snapshot : Bool
  seqnum : Nat
deriving DecidableEq, Repr

/-- The `for s in self.node.table_subscribers(...)` loop of
`DseNodeEndpoints.handle_publish_sequenced`: look each subscriber up with
`service_object` and deliver the publication to it, accumulating the
deliveries in order; looking up an id that is not hosted returns `None`
and the attribute access on it raises `AttributeError`. -/
def publishLoop (svcs : List DataService) (publisher table data : String)
    (is_snapshot : Bool) (seqnum : Nat) :
    List String → List Delivery → Except Exc (List Delivery)
  | [], acc => .ok acc
  | s :: rest, acc =>
    match service_object svcs (.byId s) with
    | none => .error .attributeError
    | some _ =>
      publishLoop svcs publisher table data is_snapshot seqnum rest
        (acc ++ [⟨s, publisher, table, data, is_snapshot, seqnum⟩])

/-- `DseNodeEndpoints.handle_publish_sequenced`: forward the publication to
every current local subscriber of (publisher, table). -/
def handle_publish_sequenced (svcs : List DataService) (subs : Subs)
    (publisher table data : String) (is_snapshot : Bool) (seqnum : Nat) :
    Except Exc (List Delivery) :=
  publishLoop svcs publisher table data is_snapshot seqnum
    (table_subscribers subs publisher table) []

/-- A persisted datasource record as returned by `get_datasources` (the
config blob and description play no role in the embedded control flow and
are omitted). -/
structure DsRecord where
  id : String
  name : String
  driver : String
  enabled : Bool
deriving DecidableEq, Repr

/-- Result of one `synchronize_datasources` run: `ok` carries the final
host list and the added/removed counters; `err` carries the host list at
the moment an exception escaped the pass, together with the exception. -/
inductive SyncOutcome where
  | ok (svcs : List DataService) (added removed : Nat)
  | err (svcs : List DataService) (e : Exc)
deriving DecidableEq, Repr

/-- The per-record loop of `synchronize_datasources`.  `create` abstracts
`create_datasource_service` (driver resolution and instantiation; on any
instantiation failure the source wraps the exception in
`DataServiceError`).  There is no try/except in this loop: any exception
escapes, carrying the host list as mutated so far. -/
def syncLoop (create : DsRecord → Except Exc DataService) :
    List DataService → List DsRecord → Nat → Nat →
    Except (List DataService × Exc) (List DataService × Nat × Nat)
  | svcs, [], added, removed => .ok (svcs, added, removed)
  | svcs, r :: rest, added, removed =>
    let active := service_object svcs (.byUuid r.id)
    if r.enabled then
      match active with
      | some _ => syncLoop create svcs rest added removed
      | none =>
        match create r with
        | .error e => .error (svcs, e)
        | .ok service =>
          match register_service svcs service with
          | .error e => .error (svcs, e)
          | .ok svcs1 => syncLoop create svcs1 rest (added + 1) removed
    else
      match active with
      | some activeDs =>
        match unregister_service svcs (.byId activeDs.service_id) with
        | (svcs1, none) => syncLoop create svcs1 rest added (removed + 1)
        | (svcs1, some e) => .error (svcs1, e)
      | none => syncLoop create svcs rest added removed

/-- The trailing cleanup of `synchronize_datasources`: unregister (by uuid)
each service in the precomputed stale list.  A stale service whose `ds_id`
is `None` makes `unregister_service(uuid_=None)` raise `TypeError` inside
`service_object`. -/
def staleCleanup : List DataService → List DataService → Nat →
    Except (List DataService × Exc) (List DataService × Nat)
  | svcs, [], removed => .ok (svcs, removed)
  | svcs, s :: rest, removed =>
    match s.ds_id with
    | none => .error (svcs, .typeError)
    | some i =>
      match unregister_service svcs (.byUuid i) with
      | (svcs1, none) => staleCleanup svcs1 rest (removed + 1)
      | (svcs1, some e) => .error (svcs1, e)

/-- `DseNode.synchronize_datasources`: reconcile the persisted records
(`datasources`, the result of `get_datasources`) against the hosted
services, then unregister the driver-backed services whose `ds_id` matches
no persisted record. -/
def synchronize_datasources (create : DsRecord → Except Exc DataService)
    (svcs : List DataService) (datasources : List DsRecord) : SyncOutcome :=
  match syncLoop create svcs datasources 0 0 with
  | .error (svcs1, e) => .err svcs1 e
  | .ok (svcs1, added, removed) =>
    let dbIds := datasources.map fun r => r.id
    let activeDsServices := svcs1.filter fun s => s.type == "datasource_driver"
    let stale := activeDsServices.filter fun s =>
      match s.ds_id with
      | some i => !dbIds.contains i
      | none => true
    match staleCleanup svcs1 stale removed with
    | .error (svcs2, e) => .err svcs2 e
    | .ok (svcs2, removed1) => .ok svcs2 added removed1

/-- `DseNode.synchronize` (the periodic task body): runs one pass and
catches every exception, logging it, so the call itself always returns
normally with whatever host list the pass left behind. -/
def synchronize (create : DsRecord → Except Exc DataService)
    (svcs : List DataService) (datasources : List DsRecord) :
    Except Exc (List DataService) :=
  match synchronize_datasources create svcs datasources with
  | .ok svcs1 _ _ => .ok svcs1
  | .err svcs1 _ => .ok svcs1

/-- `DseNode.add_datasource` on the default `update_db=True` path.
`validateResult` abstracts `validate_create_datasource` (driver/config
validation against the loaded driver schemas, raised before anything is
persisted); `engineResult` abstracts `engine.synchronize_policies()` on
the locally hosted engine service, if one exists.  Returns the final host
list, the final datasource table, and the call's result. -/
def add_datasource (create : DsRecord → Except Exc DataService)
    (validateResult : Option Exc) (engineResult : Option Exc)
    (svcs : List DataService) (peers : List String) (db : List DsRecord)
    (req : DsRecord) :
    List DataService × List DsRecord × Except Exc DsRecord :=
  match validateResult with
  | some e => (svcs, db, .error e)
  | none =>
    if is_valid_service svcs peers req.name then
      (svcs, db, .error .datasourceNameInUse)
    else if (db.map fun r => r.name).contains req.name
        || (db.map fun r => r.id).contains req.id then
      -- the DB uniqueness constraints raise DBDuplicateEntry, mapped to
      -- DatasourceNameInUse
      (svcs, db, .error .datasourceNameInUse)
    else
      let db1 := db ++ [req]
      match synchronize_datasources create svcs db1 with
      | .err svcs1 e =>
        if e = .dataServiceError then
          -- except DataServiceError: LOG.exception(...) -- swallowed
          (svcs1, db1, .ok req)
        else
          -- except Exception: delete the just-inserted record and raise
          (svcs1, db1.filter (fun r => !(r.id == req.id)),
            .error .datasourceCreationError)
      | .ok svcs1 _ _ =>
        match service_object svcs1 (.byId "engine") with
        | none => (svcs1, db1, .ok req)
        | some _ =>
          match engineResult with
          | none => (svcs1, db1, .ok req)
          | some e =>
            if e = .dataServiceError then (svcs1, db1, .ok req)
            else (svcs1, db1.filter (fun r => !(r.id == req.id)),
              .error .datasourceCreationError)

/-- Python `x or y` restricted to `None`-or-string values: `None` and the
empty string are falsy. -/
def pyOrStr (a b : Option String) : Option String :=
  match a with
  | none => b
  | some s => if s = "" then b else some s

/-- `DseNode.CONTROL_TOPIC`. -/
def CONTROL_TOPIC : String := "congress-control"

/-- The service-topic namespace constant of `DseNode` (source name:
SERVICE&#95;TOPIC&#95;PREFIX). -/
def serviceTopicBase : String := "congress-service-"

/-- The `partition_id` computed in `DseNode.__init__`:
`partition_id or cfg.CONF.bus_id or "bus"` (`bus_id` defaults to `"bus"`
but is modelled as an arbitrary configured value). -/
def initPartitionId (partitionArg busId : Option String) : Option String :=
  pyOrStr partitionArg (pyOrStr busId (some "bus"))

/-- `DseNode._add_partition`: suffix the topic with the partition id unless
the effective partition id is `None`. -/
def add_partition (selfPartitionId : Option String) (topic : String)
    (partitionArg : Option String) : String :=
  match pyOrStr partitionArg selfPartitionId with
  | none => topic
  | some p => topic ++ "-" ++ p

/-- The topic of `DseNode.node_rpc_target`:
`self._add_partition(self.CONTROL_TOPIC)`. -/
def node_rpc_topic (selfPartitionId : Option String) : String :=
  add_partition selfPartitionId CONTROL_TOPIC none

/-- The topic of `DseNode.service_rpc_target`:
`self._add_partition(self.SERVICE_TOPIC_PREFIX + service_id)`. -/
def service_rpc_topic (selfPartitionId : Option String)
    (service_id : String) : String :=
  add_partition selfPartitionId (serviceTopicBase ++ service_id) none

/-- Test fixture: a `create_datasource_service` stand-in that fails (with
the `DataServiceError` the source wraps every instantiation failure in)
for records whose driver is `"bad"`, and otherwise builds the
driver-backed service the way the synchronizer expects it
(`service_id = name`, `ds_id = record id`, type `datasource_driver`). -/
def fakeCreate (r : DsRecord) : Except Exc DataService :=
  if r.driver == "bad" then .error .dataServiceError
  else .ok ⟨r.name, some r.id, "datasource_driver"⟩

/-- Test fixture: an enabled record whose driver instantiation fails. -/
def recBad : DsRecord := ⟨"id1", "ds1", "bad", true⟩

/-- Test fixture: an enabled record whose driver instantiation succeeds. -/
def recGood : DsRecord := ⟨"id2", "ds2", "fake", true⟩

theorem dget_dset {α : Type} (d : List (String × α)) (k : String) (v : α) :
    dget (dset d k v) k = some v := by
  induction d with
  | nil => simp [dget, dset]
  | cons hd tl ih =>
    obtain ⟨k1, v1⟩ := hd
    by_cases h : k1 = k <;> simp [dget, dset, h, ih]

theorem dset_dset {α : Type} (d : List (String × α)) (k : String) (v w : α) :
    dset (dset d k v) k w = dset d k w := by
  induction d with
  | nil => simp [dset]
  | cons hd tl ih =>
    obtain ⟨k1, v1⟩ := hd
    by_cases h : k1 = k <;> simp [dset, h, ih]

theorem dset_dget_self {α : Type} (d : List (String × α)) (k : String) (v : α)
    (h : dget d k = some v) : dset d k v = d := by
  induction d with
  | nil => simp [dget] at h
  | cons hd tl ih =>
    obtain ⟨k1, v1⟩ := hd
    by_cases hk : k1 = k
    · simp [dget, hk] at h
      simp [dset, hk, h]
    · simp [dget, hk] at h
      simp [dset, hk, ih h]

theorem dget_append_self {α : Type} (d : List (String × α)) (k : String) (v : α)
    (h : dget d k = none) : dget (d ++ [(k, v)]) k = some v := by
  induction d with
  | nil => simp [dget]
  | cons hd tl ih =>
    obtain ⟨k1, v1⟩ := hd
    by_cases hk : k1 = k
    · simp [dget, hk] at h
    · simp [dget, hk] at h ⊢
      exact ih h

theorem dset_of_dget_none {α : Type} (d : List (String × α)) (k : String) (v : α)
    (h : dget d k = none) : dset d k v = d ++ [(k, v)] := by
  induction d with
  | nil => simp [dset]
  | cons hd tl ih =>
    obtain ⟨k1, v1⟩ := hd
    by_cases hk : k1 = k
    · simp [dget, hk] at h
    · simp [dget, hk] at h
      simp [dset, hk, ih h]

theorem dset_append_self {α : Type} (d : List (String × α)) (k : String) (v w : α)
    (h : dget d k = none) : dset (d ++ [(k, v)]) k w = d ++ [(k, w)] := by
  induction d with
  | nil => simp [dset]
  | cons hd tl ih =>
    obtain ⟨k1, v1⟩ := hd
    by_cases hk : k1 = k
    · simp [dget, hk] at h
    · simp [dget, hk] at h
      simp [dset, hk, ih h]

theorem ddel_append_self {α : Type} (d : List (String × α)) (k : String) (v : α)
    (h : dget d k = none) : ddel (d ++ [(k, v)]) k = d := by
  induction d with
  | nil => simp [ddel]
  | cons hd tl ih =>
    obtain ⟨k1, v1⟩ := hd
    by_cases hk : k1 = k
    · simp [dget, hk] at h
    · simp [dget, hk] at h
      simp [ddel, hk, ih h]

theorem mem_dset {α : Type} (d : List (String × α)) (k : String) (v : α)
    (x : String × α) (h : x ∈ dset d k v) : x = (k, v) ∨ x ∈ d := by
  induction d with
  | nil => simp [dset] at h; simp [h]
  | cons hd tl ih =>
    obtain ⟨k1, v1⟩ := hd
    by_cases hk : k1 = k
    · simp [dset, hk] at h
      rcases h with h | h
      · exact Or.inl h
      · exact Or.inr (List.mem_cons_of_mem _ h)
    · simp [dset, hk] at h
      rcases h with h | h
      · exact Or.inr (by simp [h])
      · rcases ih h with h1 | h1
        · exact Or.inl h1
        · exact Or.inr (List.mem_cons_of_mem _ h1)

theorem mem_ddel {α : Type} (d : List (String × α)) (k : String)
    (x : String × α) (h : x ∈ ddel d k) : x ∈ d := by
  induction d with
  | nil => simp [ddel] at h
  | cons hd tl ih =>
    obtain ⟨k1, v1⟩ := hd
    by_cases hk : k1 = k
    · simp [ddel, hk] at h
      exact List.mem_cons_of_mem _ h
    · simp [ddel, hk] at h
      rcases h with h | h
      · simp [h]
      · exact List.mem_cons_of_mem _ (ih h)

theorem dset_ne_nil {α : Type} (d : List (String × α)) (k : String) (v : α) :
    dset d k v ≠ [] := by
  cases d with
  | nil => simp [dset]
  | cons hd tl =>
    obtain ⟨k1, v1⟩ := hd
    by_cases hk : k1 = k <;> simp [dset, hk]

theorem dget_mem {α : Type} (d : List (String × α)) (k : String) (v : α)
    (h : dget d k = some v) : (k, v) ∈ d := by
  induction d with
  | nil => simp [dget] at h
  | cons hd tl ih =>
    obtain ⟨k1, v1⟩ := hd
    by_cases hk : k1 = k
    · simp [dget, hk] at h
      simp [hk, h]
    · simp [dget, hk] at h
      exact List.mem_cons_of_mem _ (ih h)

theorem setAdd_ne_nil (s : List String) (x : String) : setAdd s x ≠ [] := by
  unfold setAdd
  split
  · intro h; simp [h] at *
  · simp

theorem erase_append_singleton (ts : List String) (a : String) (h : a ∉ ts) :
    (ts ++ [a]).erase a = ts := by
  rw [List.erase_append_right _ h]; simp

theorem subs_wf_iff (subs : Subs) :
    subs_wf subs = true ↔ ∀ pe ∈ subs, pe.2 ≠ [] ∧ ∀ te ∈ pe.2, te.2 ≠ [] := by
  simp [subs_wf, List.all_eq_true, List.isEmpty_iff]

theorem subscribe_table_both_present (subs : Subs) (a p t : String)
    (inner : List (String × List String)) (tset : List String)
    (hp : dget subs p = some inner) (ht : dget inner t = some tset) :
    subscribe_table subs a p t = dset subs p (dset inner t (setAdd tset a)) := by
  unfold subscribe_table
  simp [hp, ht]

theorem subscribe_table_fresh_table (subs : Subs) (a p t : String)
    (inner : List (String × List String))
    (hp : dget subs p = some inner) (ht : dget inner t = none) :
    subscribe_table subs a p t = dset subs p (inner ++ [(t, setAdd [] a)]) := by
  unfold subscribe_table
  simp [hp, ht, dset_of_dget_none _ _ _ ht, dget_append_self _ _ _ ht,
        dset_append_self _ _ _ _ ht]

theorem subscribe_table_fresh_publisher (subs : Subs) (a p t : String)
    (hp : dget subs p = none) :
    subscribe_table subs a p t = subs ++ [(p, [(t, setAdd [] a)])] := by
  unfold subscribe_table
  simp [hp, dset_of_dget_none _ _ _ hp, dget_append_self _ _ _ hp, dget, dset,
        dset_append_self _ _ _ _ hp]

theorem unsubscribe_table_no_publisher (subs : Subs) (a p t : String)
    (hp : dget subs p = none) :
    unsubscribe_table subs a p t = (subs, some false) := by
  unfold unsubscribe_table
  simp only [hp]

theorem unsubscribe_table_no_table (subs : Subs) (a p t : String)
    (inner : List (String × List String))
    (hp : dget subs p = some inner) (ht : dget inner t = none) :
    unsubscribe_table subs a p t = (subs, some false) := by
  unfold unsubscribe_table
  simp only [hp, ht]

theorem unsubscribe_table_present (subs : Subs) (a p t : String)
    (inner : List (String × List String)) (tset : List String)
    (hp : dget subs p = some inner) (ht : dget inner t = some tset) :
    unsubscribe_table subs a p t =
      (if (if (tset.erase a).length = 0 then ddel inner t
            else dset inner t (tset.erase a)).length = 0
         then ddel subs p
         else dset subs p (if (tset.erase a).length = 0 then ddel inner t
            else dset inner t (tset.erase a)), none) := by
  unfold unsubscribe_table
  simp only [hp, ht, setDiscard]

theorem subs_wf_subscribe (subs : Subs) (a p t : String) (h : subs_wf subs = true) :
    subs_wf (subscribe_table subs a p t) = true := by
  rw [subs_wf_iff] at h ⊢
  cases hp : dget subs p with
  | none =>
    rw [subscribe_table_fresh_publisher subs a p t hp]
    intro pe hpe
    rcases List.mem_append.1 hpe with hmem | hmem
    · exact h pe hmem
    · simp at hmem
      subst hmem
      refine ⟨by simp, ?_⟩
      intro te hte
      simp at hte
      subst hte
      simpa using setAdd_ne_nil [] a
  | some inner =>
    cases ht : dget inner t with
    | none =>
      rw [subscribe_table_fresh_table subs a p t inner hp ht]
      intro pe hpe
      rcases mem_dset _ _ _ _ hpe with rfl | hmem
      · refine ⟨by simp, ?_⟩
        intro te hte
        rcases List.mem_append.1 hte with hmem2 | hmem2
        · exact (h _ (dget_mem _ _ _ hp)).2 te hmem2
        · simp at hmem2
          subst hmem2
          simpa using setAdd_ne_nil [] a
      · exact h pe hmem
    | some tset =>
      rw [subscribe_table_both_present subs a p t inner tset hp ht]
      intro pe hpe
      rcases mem_dset _ _ _ _ hpe with rfl | hmem
      · refine ⟨dset_ne_nil _ _ _, ?_⟩
        intro te hte
        rcases mem_dset _ _ _ _ hte with rfl | hmem2
        · simpa using setAdd_ne_nil tset a
        · exact (h _ (dget_mem _ _ _ hp)).2 te hmem2
      · exact h pe hmem

theorem subs_wf_unsubscribe (subs : Subs) (a p t : String) (h : subs_wf subs = true) :
    subs_wf (unsubscribe_table subs a p t).1 = true := by
  cases hp : dget subs p with
  | none => rw [unsubscribe_table_no_publisher subs a p t hp]; exact h
  | some inner =>
    cases ht : dget inner t with
    | none => rw [unsubscribe_table_no_table subs a p t inner hp ht]; exact h
    | some tset =>
      rw [unsubscribe_table_present subs a p t inner tset hp ht]
      rw [subs_wf_iff] at h ⊢
      have hinner : ∀ te ∈ (if (tset.erase a).length = 0 then ddel inner t
          else dset inner t (tset.erase a)), te.2 ≠ [] := by
        intro te hte
        by_cases h1 : (tset.erase a).length = 0
        · simp only [h1, if_true] at hte
          exact (h _ (dget_mem _ _ _ hp)).2 te (mem_ddel _ _ _ hte)
        · simp only [h1, if_false] at hte
          rcases mem_dset _ _ _ _ hte with rfl | hmem2
          · simpa [List.length_eq_zero] using h1
          · exact (h _ (dget_mem _ _ _ hp)).2 te hmem2
      by_cases h2 : (if (tset.erase a).length = 0 then ddel inner t
          else dset inner t (tset.erase a)).length = 0
      · simp only [h2, if_true]
        intro pe hpe
        exact h pe (mem_ddel _ _ _ hpe)
      · simp only [h2, if_false]
        intro pe hpe
        rcases mem_dset _ _ _ _ hpe with rfl | hmem
        · exact ⟨by simpa [List.length_eq_zero] using h2, hinner⟩
        · exact h pe hmem

theorem subs_wf_applySubsOp (subs : Subs) (op : SubsOp) (h : subs_wf subs = true) :
    subs_wf (applySubsOp subs op) = true := by
  cases op with
  | sub a p t => exact subs_wf_subscribe subs a p t h
  | unsub a p t => exact subs_wf_unsubscribe subs a p t h

theorem subs_wf_applySubsOps (ops : List SubsOp) (subs : Subs)
    (h : subs_wf subs = true) : subs_wf (applySubsOps subs ops) = true := by
  induction ops generalizing subs with
  | nil => exact h
  | cons op rest ih => exact ih _ (subs_wf_applySubsOp subs op h)

/-- Claim C6: starting from the empty subscription table, the pruning
invariant — no publisher key maps to an empty table mapping, no table key
maps to an empty subscriber set — holds after every sequence of
`subscribe_table` / `unsubscribe_table` operations. -/
theorem subscription_invariant_from_empty (ops : List SubsOp) :
    subs_wf (applySubsOps [] ops) = true :=
  subs_wf_applySubsOps ops [] (by decide)

/-- Claim C3 (corrected): `unsubscribe_table` returns `False` exactly when
the (publisher, table) pair has no entry, and the implicit `None` (falsy)
otherwise — its result is falsy even when the subscriber was present and
is removed; it never returns a truthy value. -/
theorem unsubscribe_table_return_value (subs : Subs) (a p t : String) :
    (unsubscribe_table subs a p t).2 =
      (if ((dget subs p).bind fun inner => dget inner t).isNone then some false
       else none)
    ∧ pyTruthy (unsubscribe_table subs a p t).2 = false := by
  cases hp : dget subs p with
  | none =>
    rw [unsubscribe_table_no_publisher subs a p t hp]
    simp [hp, pyTruthy]
  | some inner =>
    cases ht : dget inner t with
    | none =>
      rw [unsubscribe_table_no_table subs a p t inner hp ht]
      simp [hp, ht, pyTruthy]
    | some tset =>
      rw [unsubscribe_table_present subs a p t inner tset hp ht]
      simp [hp, ht, pyTruthy]

/-- Claim C3, counterexample to the claim as stated: on a table where the
subscriber is present, `unsubscribe_table` removes it yet returns a falsy
value (`None`), not the truthy value the claim requires. -/
theorem unsubscribe_removes_but_falsy_cex :
    (table_subscribers [("p", [("t", ["a"])])] "p" "t").contains "a" = true
    ∧ (unsubscribe_table [("p", [("t", ["a"])])] "a" "p" "t").1 = []
    ∧ pyTruthy (unsubscribe_table [("p", [("t", ["a"])])] "a" "p" "t").2 = false := by
  decide

/-- Claim C8 (corrected): on a table satisfying the pruning invariant, if
the subscriber is not already subscribed to (publisher, table), then
`subscribe_table` immediately followed by `unsubscribe_table` on the same
triple restores the table exactly, leaving no empty entries behind. -/
theorem sub_unsub_roundtrip (S : Subs) (a p t : String)
    (hwf : subs_wf S = true)
    (hns : (table_subscribers S p t).contains a = false) :
    (unsubscribe_table (subscribe_table S a p t) a p t).1 = S := by
  rw [subs_wf_iff] at hwf
  have hadd_nil : setAdd [] a = [a] := by simp [setAdd]
  cases hp : dget S p with
  | none =>
    rw [subscribe_table_fresh_publisher S a p t hp, hadd_nil]
    rw [unsubscribe_table_present (S ++ [(p, [(t, [a])])]) a p t [(t, [a])] [a]
      (dget_append_self S p _ hp) (by simp [dget])]
    simp [ddel, ddel_append_self S p _ hp]
  | some inner =>
    have hinner_ne : inner ≠ [] := (hwf _ (dget_mem _ _ _ hp)).1
    cases ht : dget inner t with
    | none =>
      rw [subscribe_table_fresh_table S a p t inner hp ht, hadd_nil]
      rw [unsubscribe_table_present (dset S p (inner ++ [(t, [a])])) a p t
        (inner ++ [(t, [a])]) [a] (dget_dset S p _) (dget_append_self inner t _ ht)]
      simp only [List.erase_cons_head, List.length_nil, if_true,
        ddel_append_self inner t _ ht]
      rw [if_neg (by simpa [List.length_eq_zero] using hinner_ne)]
      rw [dset_dset, dset_dget_self S p inner hp]
    | some tset =>
      have htset : table_subscribers S p t = tset := by
        simp [table_subscribers, hp, ht]
      rw [htset] at hns
      have hnotmem : a ∉ tset := by simpa using hns
      have htset_ne : tset ≠ [] :=
        (hwf _ (dget_mem _ _ _ hp)).2 _ (dget_mem _ _ _ ht)
      have hadd : setAdd tset a = tset ++ [a] := by simp [setAdd, hnotmem]
      rw [subscribe_table_both_present S a p t inner tset hp ht, hadd]
      rw [unsubscribe_table_present (dset S p (dset inner t (tset ++ [a]))) a p t
        (dset inner t (tset ++ [a])) (tset ++ [a]) (dget_dset S p _)
        (dget_dset inner t _)]
      rw [erase_append_singleton tset a hnotmem]
      have h1 : (if tset.length = 0 then ddel (dset inner t (tset ++ [a])) t
          else dset (dset inner t (tset ++ [a])) t tset) = inner := by
        rw [if_neg (by simpa [List.length_eq_zero] using htset_ne), dset_dset,
          dset_dget_self inner t tset ht]
      rw [h1]
      rw [if_neg (by simpa [List.length_eq_zero] using hinner_ne)]
      rw [dset_dset, dset_dget_self S p inner hp]

/-- Claim C8, counterexample to the claim as stated: from a state where the
subscriber is already subscribed, subscribing again and then unsubscribing
does not restore the prior state (the subscription is lost). -/
theorem sub_unsub_roundtrip_cex :
    (unsubscribe_table (subscribe_table (subscribe_table [] "a" "p" "t") "a" "p" "t")
        "a" "p" "t").1 ≠ subscribe_table [] "a" "p" "t" := by
  decide

/-- Witness for the corrected C8 theorem at a concrete state. -/
theorem sub_unsub_roundtrip_witness :
    subs_wf [("q", [("u", ["b"])])] = true
    ∧ (table_subscribers [("q", [("u", ["b"])])] "p" "t").contains "a" = false
    ∧ (unsubscribe_table (subscribe_table [("q", [("u", ["b"])])] "a" "p" "t")
        "a" "p" "t").1 = [("q", [("u", ["b"])])] :=
  ⟨by decide, by decide,
    sub_unsub_roundtrip [("q", [("u", ["b"])])] "a" "p" "t" (by decide) (by decide)⟩

theorem service_object_byId_none (svcs : List DataService) (sid : String)
    (h : service_object svcs (.byId sid) = none) :
    ∀ s ∈ svcs, s.service_id ≠ sid := by
  intro s hs
  have h2 := List.find?_eq_none.1 h s hs
  simpa using h2

theorem regIds_nodup_applyRegOp (svcs : List DataService) (op : RegOp)
    (h : (svcs.map DataService.service_id).Nodup) :
    ((applyRegOp svcs op).map DataService.service_id).Nodup := by
  cases op with
  | reg s =>
    by_cases hdup : (service_object svcs (.byId s.service_id)).isSome
    · have heq : applyRegOp svcs (.reg s) = svcs := by
        simp [applyRegOp, register_service, hdup]
      rw [heq]; exact h
    · have heq : applyRegOp svcs (.reg s) = svcs ++ [s] := by
        simp [applyRegOp, register_service, hdup]
      rw [heq]
      have hne := service_object_byId_none svcs s.service_id
        (Option.not_isSome_iff_eq_none.1 hdup)
      rw [List.map_append]
      refine List.Nodup.append h (List.nodup_singleton _) ?_
      intro x hx hx2
      simp at hx2
      subst hx2
      rcases List.mem_map.1 hx with ⟨y, hy, hyid⟩
      exact hne y hy hyid
  | unreg sel =>
    cases hso : service_object svcs sel with
    | none =>
      have heq : applyRegOp svcs (.unreg sel) = svcs := by
        simp [applyRegOp, unregister_service, hso]
      rw [heq]; exact h
    | some svc =>
      have heq : applyRegOp svcs (.unreg sel) = svcs.erase svc := by
        simp [applyRegOp, unregister_service, hso]
      rw [heq]
      exact List.Nodup.sublist (List.Sublist.map _ (List.erase_sublist _ _)) h

theorem regIds_nodup_applyRegOps (ops : List RegOp) (svcs : List DataService)
    (h : (svcs.map DataService.service_id).Nodup) :
    ((applyRegOps svcs ops).map DataService.service_id).Nodup := by
  induction ops generalizing svcs with
  | nil => exact h
  | cons op rest ih => exact ih _ (regIds_nodup_applyRegOp svcs op h)

theorem service_object_after_unregister (svcs : List DataService) (sid : String)
    (h : (svcs.map DataService.service_id).Nodup) :
    service_object (unregister_service svcs (.byId sid)).1 (.byId sid) = none := by
  cases hso : service_object svcs (.byId sid) with
  | none => simp [unregister_service, hso]
  | some svc =>
    have hstep : (unregister_service svcs (.byId sid)).1 = svcs.erase svc := by
      simp [unregister_service, hso]
    rw [hstep]
    have hsvcmem : svc ∈ svcs := List.mem_of_find?_eq_some hso
    have hsvcid : svc.service_id = sid := by
      have h2 := List.find?_some hso
      simpa using h2
    rcases List.exists_erase_eq hsvcmem with ⟨l1, l2, hnl1, heq, herase⟩
    rw [show service_object (svcs.erase svc) (.byId sid)
        = (svcs.erase svc).find? (fun s => s.service_id == sid) from rfl]
    rw [herase, List.find?_eq_none]
    intro x hx hbeq
    have hxid : x.service_id = sid := by simpa using hbeq
    rw [heq] at h
    simp only [List.map_append, List.map_cons] at h
    rcases List.mem_append.1 hx with hx1 | hx2
    · have hdisj := (List.nodup_append.1 h).2.2
      exact hdisj (List.mem_map_of_mem _ hx1) (by simp [hxid, hsvcid])
    · have hcons := (List.nodup_append.1 h).2.1
      have hnotmem := (List.nodup_cons.1 hcons).1
      exact hnotmem (by
        rw [hsvcid, ← hxid]
        exact List.mem_map_of_mem _ hx2)

/-- Claim C7: across every sequence of register/unregister calls from the
empty host list, service ids stay pairwise distinct; registering an
already-hosted id raises `DataServiceError` and leaves the host list
unchanged; and after an unregister of an id, `service_object` on that id
returns `None`. -/
theorem registry_unique_ids (ops : List RegOp) :
    ((applyRegOps [] ops).map DataService.service_id).Nodup
    ∧ (∀ svcs s, (service_object svcs (.byId s.service_id)).isSome →
        register_service svcs s = .error .dataServiceError
        ∧ applyRegOp svcs (.reg s) = svcs)
    ∧ (∀ sid, service_object
        (unregister_service (applyRegOps [] ops) (.byId sid)).1 (.byId sid) = none) := by
  refine ⟨regIds_nodup_applyRegOps ops [] (by simp), ?_, ?_⟩
  · intro svcs s hdup
    exact ⟨by simp [register_service, hdup],
           by simp [applyRegOp, register_service, hdup]⟩
  · intro sid
    exact service_object_after_unregister _ sid
      (regIds_nodup_applyRegOps ops [] (by simp))

/-- Witness for C7 at a concrete operation sequence and duplicate
registration. -/
theorem registry_unique_ids_witness :
    ((applyRegOps [] [RegOp.reg ⟨"engine", none, ""⟩]).map DataService.service_id).Nodup
    ∧ (register_service [⟨"engine", none, ""⟩] ⟨"engine", none, ""⟩
          = .error .dataServiceError
        ∧ applyRegOp [⟨"engine", none, ""⟩] (.reg ⟨"engine", none, ""⟩)
          = [⟨"engine", none, ""⟩])
    ∧ service_object (unregister_service (applyRegOps [] [RegOp.reg ⟨"engine", none, ""⟩])
        (.byId "engine")).1 (.byId "engine") = none :=
  ⟨(registry_unique_ids [RegOp.reg ⟨"engine", none, ""⟩]).1,
   (registry_unique_ids [RegOp.reg ⟨"engine", none, ""⟩]).2.1
     [⟨"engine", none, ""⟩] ⟨"engine", none, ""⟩ (by decide),
   (registry_unique_ids [RegOp.reg ⟨"engine", none, ""⟩]).2.2 "engine"⟩

/-- Claim C2 (code bug): `unregister_service` with a selector matching no
hosted service leaves the host list unchanged but raises `AttributeError`
(the trailing debug log dereferences the `None` lookup result), although
its own docstring promises a no-op. -/
theorem unregister_no_match_raises :
    unregister_service [⟨"_congress_control_bus", none, ""⟩] (.byId "nova")
      = ([⟨"_congress_control_bus", none, ""⟩], some .attributeError) := by
  decide

/-- Claim C5: `invoke_service_rpc` never surfaces a raw transport timeout
or delivery failure: a failed liveness ping (issued only when the service
id is not in the global service names) and a timeout/delivery failure of
the real call are both translated to `NotFound` carrying the service id. -/
theorem invoke_service_rpc_translates_errors {α : Type} (svcs : List DataService)
    (peers : List String) (service_id : String) (ping : RpcOutcome Unit)
    (call : RpcOutcome α) :
    (invoke_service_rpc svcs peers service_id ping call ≠ .error .messagingTimeout
      ∧ invoke_service_rpc svcs peers service_id ping call
          ≠ .error .messageDeliveryFailure)
    ∧ (is_valid_service svcs peers service_id = false →
        (ping = .timeout ∨ ping = .deliveryFailure) →
        invoke_service_rpc svcs peers service_id ping call
          = .error (.notFound service_id))
    ∧ ((is_valid_service svcs peers service_id = true ∨ ping = .ok ()) →
        (call = .timeout ∨ call = .deliveryFailure) →
        invoke_service_rpc svcs peers service_id ping call
          = .error (.notFound service_id)) := by
  unfold invoke_service_rpc
  by_cases hv : is_valid_service svcs peers service_id <;>
    cases ping <;> cases call <;> simp [hv]

/-- Witness for C5: a ping timeout on an unknown service id, and a call
timeout after a successful ping, both surface as `NotFound`. -/
theorem invoke_service_rpc_translates_errors_witness :
    is_valid_service [] [] "svcA" = false
    ∧ invoke_service_rpc [] [] "svcA" RpcOutcome.timeout (RpcOutcome.ok (0 : Nat))
        = .error (.notFound "svcA")
    ∧ invoke_service_rpc [] [] "svcA" (RpcOutcome.ok ())
        (RpcOutcome.timeout : RpcOutcome Nat) = .error (.notFound "svcA") :=
  ⟨by decide,
   (invoke_service_rpc_translates_errors [] [] "svcA" RpcOutcome.timeout
     (RpcOutcome.ok (0 : Nat))).2.1 (by decide) (Or.inl rfl),
   (invoke_service_rpc_translates_errors [] [] "svcA" (RpcOutcome.ok ())
     (RpcOutcome.timeout : RpcOutcome Nat)).2.2 (Or.inr rfl) (Or.inl rfl)⟩

theorem publishLoop_ok (svcs : List DataService) (publisher table data : String)
    (is_snapshot : Bool) (seqnum : Nat) (l : List String) (acc : List Delivery)
    (h : ∀ s ∈ l, (service_object svcs (.byId s)).isSome) :
    publishLoop svcs publisher table data is_snapshot seqnum l acc
      = .ok (acc ++ l.map fun s => ⟨s, publisher, table, data, is_snapshot, seqnum⟩) := by
  induction l generalizing acc with
  | nil => simp [publishLoop]
  | cons s rest ih =>
    have hs := h s (List.mem_cons_self s rest)
    cases hso : service_object svcs (.byId s) with
    | none => simp [hso] at hs
    | some svc =>
      simp only [publishLoop, hso]
      rw [ih _ fun x hx => h x (List.mem_cons_of_mem _ hx)]
      simp

/-- Claim C9: when every current local subscriber of (publisher, table) is
a hosted service, `handle_publish_sequenced` performs exactly one delivery
per subscriber, in subscriber order, each carrying exactly the `seqnum`
and `is_snapshot` it was invoked with; with zero subscribers it is a
no-op that does not fail. -/
theorem handle_publish_sequenced_delivers (svcs : List DataService) (subs : Subs)
    (publisher table data : String) (is_snapshot : Bool) (seqnum : Nat)
    (h : ∀ s ∈ table_subscribers subs publisher table,
        (service_object svcs (.byId s)).isSome) :
    handle_publish_sequenced svcs subs publisher table data is_snapshot seqnum
      = .ok ((table_subscribers subs publisher table).map
          fun s => ⟨s, publisher, table, data, is_snapshot, seqnum⟩) := by
  unfold handle_publish_sequenced
  rw [publishLoop_ok svcs publisher table data is_snapshot seqnum _ [] h]
  simp

/-- Witness for C9: one hosted subscriber receives the publication with the
given seqnum and snapshot flag, and a pair with no subscribers is a no-op. -/
theorem handle_publish_sequenced_delivers_witness :
    handle_publish_sequenced [⟨"x", none, ""⟩] [("p", [("t", ["x"])])]
        "p" "t" "payload" true 7
      = .ok [⟨"x", "p", "t", "payload", true, 7⟩]
    ∧ handle_publish_sequenced [⟨"x", none, ""⟩] [("p", [("t", ["x"])])]
        "q" "t" "payload" false 8 = .ok [] :=
  ⟨by
    rw [handle_publish_sequenced_delivers [⟨"x", none, ""⟩] [("p", [("t", ["x"])])]
      "p" "t" "payload" true 7 (by decide)]
    rfl,
   by
    rw [handle_publish_sequenced_delivers [⟨"x", none, ""⟩] [("p", [("t", ["x"])])]
      "q" "t" "payload" false 8 (by decide)]
    rfl⟩

theorem initPartitionId_isSome (partitionArg busId : Option String) :
    ∃ p : String, initPartitionId partitionArg busId = some p := by
  unfold initPartitionId pyOrStr
  cases partitionArg with
  | none =>
    cases busId with
    | none => exact ⟨"bus", rfl⟩
    | some b =>
      by_cases hb : b = ""
      · exact ⟨"bus", by simp [hb]⟩
      · exact ⟨b, by simp [hb]⟩
  | some s =>
    by_cases hs : s = ""
    · cases busId with
      | none => exact ⟨"bus", by simp [hs]⟩
      | some b =>
        by_cases hb : b = ""
        · exact ⟨"bus", by simp [hs, hb]⟩
        · exact ⟨b, by simp [hs, hb]⟩
    · exact ⟨s, by simp [hs]⟩

/-- Claim C10: the `partition_id` computed at construction is never `None`
(falling back to the configured bus id and then to the literal `"bus"`),
so every node-level and service-level topic carries the `-partition_id`
suffix and the unsuffixed branch of `_add_partition` is unreachable from a
constructed node. -/
theorem partition_id_always_set (partitionArg busId : Option String) :
    (∃ p : String, initPartitionId partitionArg busId = some p
      ∧ node_rpc_topic (initPartitionId partitionArg busId)
          = CONTROL_TOPIC ++ "-" ++ p
      ∧ ∀ sid, service_rpc_topic (initPartitionId partitionArg busId) sid
          = serviceTopicBase ++ sid ++ "-" ++ p)
    ∧ initPartitionId none (some "mybus") = some "mybus"
    ∧ initPartitionId none none = some "bus" := by
  refine ⟨?_, by decide, by decide⟩
  obtain ⟨p, hp⟩ := initPartitionId_isSome partitionArg busId
  refine ⟨p, hp, ?_, ?_⟩
  · rw [hp]
    simp [node_rpc_topic, add_partition, pyOrStr]
  · intro sid
    rw [hp]
    simp [service_rpc_topic, add_partition, pyOrStr]

/-- Claim C1, counterexample to the claim as stated: with two enabled
records, instantiation of the first failing, `synchronize_datasources`
aborts with the exception and the unchanged host list — the second record
is not reconciled in the pass (no service for it is registered), where the
claim requires the pass to continue. -/
theorem sync_error_aborts_pass_cex :
    synchronize_datasources fakeCreate [] [recBad, recGood]
      = .err [] .dataServiceError := by
  rfl

/-- Claim C1 (corrected): an instantiation error for an enabled record with
no matching hosted service propagates out of `synchronize_datasources`
immediately, aborting the pass with the host list as it stood — the
records after the failing one are not processed — and the exception is
caught and logged one level up in `synchronize`, so the periodic schedule
continues. -/
theorem sync_instantiation_error_aborts_pass
    (create : DsRecord → Except Exc DataService) (svcs : List DataService)
    (r : DsRecord) (rest : List DsRecord) (e : Exc)
    (h1 : r.enabled = true) (h2 : service_object svcs (.byUuid r.id) = none)
    (h3 : create r = .error e) :
    synchronize_datasources create svcs (r :: rest) = .err svcs e
    ∧ synchronize create svcs (r :: rest) = .ok svcs := by
  have hloop : syncLoop create svcs (r :: rest) 0 0 = .error (svcs, e) := by
    unfold syncLoop
    simp [h1, h2, h3]
  constructor
  · unfold synchronize_datasources
    rw [hloop]
  · unfold synchronize synchronize_datasources
    rw [hloop]

/-- Witness for the corrected C1 theorem at a concrete failing record. -/
theorem sync_instantiation_error_aborts_pass_witness :
    recBad.enabled = true
    ∧ service_object [] (.byUuid recBad.id) = none
    ∧ fakeCreate recBad = .error .dataServiceError
    ∧ synchronize_datasources fakeCreate [] [recBad, recGood]
        = .err [] .dataServiceError
    ∧ synchronize fakeCreate [] [recBad, recGood] = .ok [] :=
  ⟨rfl, rfl, rfl,
   (sync_instantiation_error_aborts_pass fakeCreate [] recBad [recGood]
     .dataServiceError rfl rfl rfl).1,
   (sync_instantiation_error_aborts_pass fakeCreate [] recBad [recGood]
     .dataServiceError rfl rfl rfl).2⟩

/-- Claim C4, counterexample to the claim as stated: instantiation of the
just-persisted record fails (with the `DataServiceError` the source wraps
every instantiation failure in) during the immediately triggered
synchronization, yet `add_datasource` keeps the persisted record, starts
no service for it, and returns success — the record is not deleted and no
error is surfaced. -/
theorem add_datasource_swallows_failure_cex :
    fakeCreate recBad = .error .dataServiceError
    ∧ add_datasource fakeCreate none none [] [] [] recBad
        = ([], [recBad], .ok recBad) :=
  ⟨rfl, rfl⟩

/-- Claim C4 (corrected): after the record is persisted, a
`DataServiceError` raised by the synchronization block of
`add_datasource` is logged and swallowed — the record is retained and the
call returns success — while any other exception causes the just-inserted
record to be deleted before `DatasourceCreationError` is surfaced. -/
theorem add_datasource_post_persist_dispatch
    (create : DsRecord → Except Exc DataService) (engineResult : Option Exc)
    (svcs : List DataService) (peers : List String) (db : List DsRecord)
    (req : DsRecord)
    (hname : is_valid_service svcs peers req.name = false)
    (hdbn : (db.map fun r => r.name).contains req.name = false)
    (hdbi : (db.map fun r => r.id).contains req.id = false) :
    ∀ svcs1 e, synchronize_datasources create svcs (db ++ [req]) = .err svcs1 e →
      (e = .dataServiceError →
        add_datasource create none engineResult svcs peers db req
          = (svcs1, db ++ [req], .ok req))
      ∧ (e ≠ .dataServiceError →
        add_datasource create none engineResult svcs peers db req
          = (svcs1, db, .error .datasourceCreationError)) := by
  intro svcs1 e hsync
  have hfilter : (db ++ [req]).filter (fun r => !(r.id == req.id)) = db := by
    rw [List.filter_append]
    have hself : db.filter (fun r => !(r.id == req.id)) = db := by
      apply List.filter_eq_self.2
      intro r hr
      have hne : r.id ≠ req.id := by
        intro hcontra
        have hmem : req.id ∈ db.map (fun r => r.id) := by
          rw [← hcontra]
          exact List.mem_map_of_mem _ hr
        simp at hdbi
        exact hdbi r hr hcontra
      simp [hne]
    rw [hself]
    simp
  have hmain : add_datasource create none engineResult svcs peers db req
      = (if e = .dataServiceError then (svcs1, db ++ [req], .ok req)
         else (svcs1, (db ++ [req]).filter (fun r => !(r.id == req.id)),
           .error .datasourceCreationError)) := by
    unfold add_datasource
    simp only [hname, hdbn, hdbi, hsync, Bool.false_eq_true, if_false,
      Bool.or_self]
  constructor
  · intro he
    rw [hmain, if_pos he]
  · intro hne
    rw [hmain, if_neg hne, hfilter]

/-- Witness for the corrected C4 theorem: one post-persist
`DataServiceError` (record retained, success returned) and one
post-persist `TypeError` from stale-service cleanup (record deleted,
`DatasourceCreationError` raised). -/
theorem add_datasource_post_persist_dispatch_witness :
    is_valid_service [] [] recBad.name = false
    ∧ add_datasource fakeCreate none none [] [] [] recBad
        = ([], [recBad], .ok recBad)
    ∧ add_datasource fakeCreate none none
        [⟨"weird", none, "datasource_driver"⟩] [] [] recGood
        = ([⟨"weird", none, "datasource_driver"⟩,
            ⟨"ds2", some "id2", "datasource_driver"⟩],
           [], .error .datasourceCreationError) :=
  ⟨rfl,
   ((add_datasource_post_persist_dispatch fakeCreate none [] [] [] recBad
       rfl rfl rfl) [] .dataServiceError rfl).1 rfl,
   ((add_datasource_post_persist_dispatch fakeCreate none
       [⟨"weird", none, "datasource_driver"⟩] [] [] recGood rfl rfl rfl)
     [⟨"weird", none, "datasource_driver"⟩,
      ⟨"ds2", some "id2", "datasource_driver"⟩] .typeError rfl).2 (by decide)⟩
